import Mathlib

/-!
Verification of `scripts/train_inferred_region_model.py` (ask2ask.uk).

Shallow embedding notes:
* Python floats are modelled as rationals (ℚ); the claims under study are about
  control flow, defaults and clamping, not floating-point rounding.
* A loosely-typed field of a visit record is a `PyVal` (number, string, bool or
  None); Python truthiness is `PyVal.truthy`.  Python `bool` participates in
  arithmetic as 0/1, hence `PyVal.asNum?`.
* Code that can raise is embedded in `Except PyError`.
* `nearest_region_by_coords` in the source compares `((Δlat)² + (Δlon)²) ** 0.5`
  against `100`; since square root is strictly monotone on nonnegatives this is
  order-isomorphic to comparing the squared distance against `100² = 10000`,
  which is how the embedding states it (no square roots needed on ℚ).
* `build_features` reads the wall clock (`pd.Timestamp.now()`) when the record
  has no timestamp; the embedding makes that dependency explicit as a `now`
  argument.
-/

namespace Ask2Ask

/-- A Python value that can sit in a loosely-typed field of a visit record. -/
inductive PyVal where
  | num (q : ℚ)
  | str (s : String)
  | bool (b : Bool)
  | none
  deriving DecidableEq

/-- Python truthiness of a `PyVal` (0, "", False and None are falsy). -/
def PyVal.truthy : PyVal → Bool
  | .num q => decide (q ≠ 0)
  | .str s => decide (s ≠ "")
  | .bool b => b
  | .none => false

/-- Numeric view of a `PyVal`: Python arithmetic accepts numbers and bools
(`True` is 1, `False` is 0) and raises `TypeError` on strings and `None`. -/
def PyVal.asNum? : PyVal → Option ℚ
  | .num q => some q
  | .bool b => some (if b then 1 else 0)
  | _ => Option.none

/-- Is the value a Python `str` (only strings have `.lower()`)? -/
def PyVal.isStr : PyVal → Bool
  | .str _ => true
  | _ => false

/-- Exceptions the embedded code can raise. -/
inductive PyError where
  | typeError
  | attributeError
  deriving DecidableEq

/-- One entry of `REGION_DEFINITIONS`. -/
structure RegionMeta where
  name : String
  country : String
  lat : ℚ
  lon : ℚ
  deriving DecidableEq

/-- The static region catalog, in the Python dict's insertion (= iteration)
order. -/
def REGION_DEFINITIONS : List (String × RegionMeta) :=
  [("eu-ams", ⟨"Amsterdam Metro", "NL", 52.3676, 4.9041⟩),
   ("eu-bru", ⟨"Brussels Metro", "BE", 50.8503, 4.3517⟩),
   ("eu-fra", ⟨"Frankfurt Metro", "DE", 50.1109, 8.6821⟩),
   ("eu-ber", ⟨"Berlin Metro", "DE", 52.5200, 13.4050⟩),
   ("eu-par", ⟨"Paris Metro", "FR", 48.8566, 2.3522⟩),
   ("eu-lon", ⟨"London Metro", "GB", 51.5074, -0.1278⟩),
   ("us-nyc", ⟨"New York Metro", "US", 40.7128, -74.0060⟩),
   ("us-lax", ⟨"Los Angeles Metro", "US", 34.0522, -118.2437⟩),
   ("us-chi", ⟨"Chicago Metro", "US", 41.8781, -87.6298⟩),
   ("ap-tok", ⟨"Tokyo Metro", "JP", 35.6762, 139.6503⟩)]

/-- The `asn_correlation` sub-object.  `Option.none` at the record level stands
for "key absent or empty dict" (both are falsy in `if correlation:`); a present
value stands for a non-empty dict carrying these optional keys. -/
structure AsnCorrelation where
  average_deviation : Option ℚ := Option.none
  pattern_similarity : Option ℚ := Option.none
  matching_asns : Option ℚ := Option.none
  visit_count : Option ℚ := Option.none
  deriving DecidableEq

/-- The `vpn_detection` sub-object; the code only ever calls `.get` on it, so
an absent object and an empty dict behave identically (both keys default). -/
structure VpnDetection where
  is_likely_vpn : Option Bool := Option.none
  suspicion_level : Option String := Option.none
  deriving DecidableEq

/-- Hour-of-day and weekday of a (well-formed) timestamp — the only two
projections `build_features` uses. -/
structure Timestamp where
  hour : Fin 24
  weekday : Fin 7
  deriving DecidableEq

/-- One NDJSON visit record.  All fields optional; the loosely-typed signals
consumed by `extract_label` are `PyVal`s so that malformed values are
representable. -/
structure VisitRecord where
  latitude : Option PyVal := Option.none
  longitude : Option PyVal := Option.none
  geoip_city : Option PyVal := Option.none
  asn_inferred_city : Option PyVal := Option.none
  asn_correlation : Option AsnCorrelation := Option.none
  vpn_detection : Option VpnDetection := Option.none
  timezone_offset_minutes : Option ℚ := Option.none
  timestamp : Option Timestamp := Option.none
  locale : Option String := Option.none
  deriving DecidableEq

/-- Is `needle` a prefix of `hay` (on characters)? -/
def matchesHead : List Char → List Char → Bool
  | [], _ => true
  | _ :: _, [] => false
  | a :: as, b :: bs => a == b && matchesHead as bs

/-- Contiguous-substring test on characters: Python's `needle in hay`. -/
def charsContain (needle : List Char) : List Char → Bool
  | [] => needle.isEmpty
  | b :: bs => matchesHead needle (b :: bs) || charsContain needle bs

/-- Python's `str.lower()` on the characters of a string (the catalog names
are ASCII, where per-character lowering agrees with Python). -/
def lowerChars (s : String) : List Char :=
  s.data.map Char.toLower

/-- `ModelTrainer.find_region_by_city`: lowercase the city and return the first
catalog region whose lowercased display name contains it (`city_lower in
meta['name'].lower()`); `None` when no region matches.  A non-string argument
has no `.lower()` and raises `AttributeError`. -/
def find_region_by_city (city : PyVal) : Except PyError (Option String) :=
  match city with
  | .str s =>
      let city_lower := lowerChars s
      .ok (((REGION_DEFINITIONS.find?
        (fun rm => charsContain city_lower (lowerChars rm.2.name))).map
          (fun rm => rm.1)))
  | _ => .error .attributeError

/-- The scanning loop of `ModelTrainer.nearest_region_by_coords`: walk the
catalog keeping the strictly closest centroid seen so far (`None` plays the
role of `best_distance = inf`, which the first candidate always beats). -/
def nearestFold (lat lon : ℚ) :
    Option (String × ℚ) → List (String × RegionMeta) → Option (String × ℚ)
  | acc, [] => acc
  | Option.none, rm :: rest =>
      nearestFold lat lon
        (some (rm.1, (lat - rm.2.lat) ^ 2 + (lon - rm.2.lon) ^ 2)) rest
  | some (brid, bd2), rm :: rest =>
      let d2 := (lat - rm.2.lat) ^ 2 + (lon - rm.2.lon) ^ 2
      if d2 < bd2 then nearestFold lat lon (some (rm.1, d2)) rest
      else nearestFold lat lon (some (brid, bd2)) rest

/-- `ModelTrainer.nearest_region_by_coords`: scan the catalog, then accept the
closest centroid only under the distance gate.  The source computes
`dist = (Δlat² + Δlon²) ** 0.5` and tests `dist < best` and `best < 100`; the
embedding carries the squared distance and tests `d2 < best2` and
`best2 < 10000`, which is equivalent since square root is strictly monotone on
nonnegative reals. -/
def nearest_region_by_coords (lat lon : ℚ) : Option String :=
  match nearestFold lat lon Option.none REGION_DEFINITIONS with
  | some (rid, bd2) => if bd2 < 10000 then some rid else Option.none
  | Option.none => Option.none

/-- Steps 2–4 of `ModelTrainer.extract_label`: the ASN-inferred-city check and
the final `return None`. -/
def asnStep (row : VisitRecord) : Except PyError (Option String) :=
  let v := row.asn_inferred_city.getD .none
  if v.truthy then
    match find_region_by_city v with
    | .error e => .error e
    | .ok (some r) => .ok (some r)
    | .ok Option.none => .ok Option.none
  else .ok Option.none

/-- Steps 2–4 of `ModelTrainer.extract_label`: geo-IP city, then ASN-inferred
city, then no label.  (A step whose lookup returns `None` falls through, since
`if region:` fails on `None`.) -/
def cityLabel (row : VisitRecord) : Except PyError (Option String) :=
  let g := row.geoip_city.getD .none
  if g.truthy then
    match find_region_by_city g with
    | .error e => .error e
    | .ok (some r) => .ok (some r)
    | .ok Option.none => asnStep row
  else asnStep row

/-- `ModelTrainer.extract_label`: if both coordinates are truthy the result is
whatever the coordinate step returns (including `None` — no fall-through);
otherwise the city signals are consulted.  Arithmetic on a truthy non-numeric
coordinate raises `TypeError`. -/
def extract_label (row : VisitRecord) : Except PyError (Option String) :=
  let latv := row.latitude.getD .none
  let lonv := row.longitude.getD .none
  if latv.truthy && lonv.truthy then
    match latv.asNum?, lonv.asNum? with
    | some lat, some lon => .ok (nearest_region_by_coords lat lon)
    | _, _ => .error .typeError
  else
    cityLabel row

/-- `ModelTrainer.normalize_rtt`. -/
def normalize_rtt (rtt_ms : ℚ) : ℚ :=
  max 0 (min 1 ((rtt_ms - 10) / 490))

/-- `ModelTrainer.build_features`.  `now` is the wall-clock time the source
reads via `pd.Timestamp.now()` when the record has no timestamp. -/
def build_features (now : Timestamp) (row : VisitRecord) : List ℚ :=
  let corr :=
    match row.asn_correlation with
    | some c =>
        [normalize_rtt (c.average_deviation.getD 0),
         c.pattern_similarity.getD 0,
         (c.matching_asns.getD 0) / 50,
         if (c.visit_count.getD 0) > 0 then 1 else 0]
    | Option.none => [0, 0, 0, 0]
  let tz_minutes := row.timezone_offset_minutes.getD 0
  let tz_hours := if tz_minutes = 0 then 0 else tz_minutes / 60
  let tz_normalized := max (-1) (min 1 (tz_hours / 12))
  let vpn := row.vpn_detection.getD {}
  let f_vpn : ℚ := if vpn.is_likely_vpn.getD false then 1 else 0
  let suspicion_level := vpn.suspicion_level.getD "low"
  let suspicion_score : ℚ :=
    if suspicion_level = "high" then 1
    else if suspicion_level = "medium" then 0.5
    else if suspicion_level = "low" then 0.25
    else 0
  let ts := row.timestamp.getD now
  let loc := row.locale.getD ""
  let locale_score : ℚ := if loc ≠ "" ∧ loc.length > 2 then 0.5 else 0
  corr ++
    [tz_normalized, f_vpn, suspicion_score,
     (ts.hour.val : ℚ) / 24, (ts.weekday.val : ℚ) / 7, locale_score]

/-- One pass of `ModelTrainer.prepare_training_data` over the parsed records:
records with no label are skipped, labelled records contribute a feature row
and a label string; an exception from `extract_label` propagates. -/
def prepare_training_data (now : Timestamp) :
    List VisitRecord → Except PyError (List (List ℚ × String))
  | [] => .ok []
  | r :: rest =>
    match extract_label r with
    | .error e => .error e
    | .ok Option.none => prepare_training_data now rest
    | .ok (some l) =>
      match prepare_training_data now rest with
      | .error e => .error e
      | .ok xs => .ok ((build_features now r, l) :: xs)

/-- `sklearn.LabelEncoder.fit`: the sorted list of distinct labels
(`np.unique`). -/
def labelClasses (labels : List String) : List String :=
  labels.toFinset.sort (fun a b => a ≤ b)

/-- The `classIndexToRegionId` map of `ModelTrainer.save_metadata`:
`{str(idx): region for idx, region in enumerate(le.classes_)}`, as an
association list in insertion order. -/
def classIndexToRegionId (classes : List String) : List (String × String) :=
  classes.enum.map (fun p => (toString p.1, p.2))

/-- Which effects a pipeline run performed, and its boolean return value. -/
structure RunOutcome where
  success : Bool
  trained : Bool
  exported : Bool
  metadataWritten : Bool
  deriving DecidableEq

/-- Control flow of `ModelTrainer.run` after loading: assemble the dataset,
abort with `False` (performing nothing further) when fewer than 50 samples
remain, otherwise run the training / export / metadata stages (external
library calls, recorded here as performed effects) and return `True`. -/
def run (now : Timestamp) (records : List VisitRecord) :
    Except PyError RunOutcome :=
  match prepare_training_data now records with
  | .error e => .error e
  | .ok samples =>
    if samples.length < 50 then
      .ok ⟨false, false, false, false⟩
    else
      .ok ⟨true, true, true, true⟩

/-- Is the `PyVal`, when truthy, usable as a coordinate (Python arithmetic
accepts numbers and bools)? -/
def coordOk (v : PyVal) : Bool :=
  v.asNum?.isSome || !v.truthy

/-- Is the `PyVal`, when truthy, usable as a city (only `str` has
`.lower()`)? -/
def cityOk (v : PyVal) : Bool :=
  v.isStr || !v.truthy

/-- All loosely-typed signal fields of the record that are present and truthy
have the type the extraction code expects. -/
def wellTypedRecord (row : VisitRecord) : Bool :=
  row.latitude.all coordOk && row.longitude.all coordOk &&
    row.geoip_city.all cityOk && row.asn_inferred_city.all cityOk

/-- A fixed wall-clock instant (hour 0, Monday). -/
def now0 : Timestamp := ⟨⟨0, by norm_num⟩, ⟨0, by norm_num⟩⟩

/-- A different wall-clock instant (hour 12, Thursday). -/
def now12 : Timestamp := ⟨⟨12, by norm_num⟩, ⟨3, by norm_num⟩⟩

/-- A record with every field absent. -/
def emptyRecord : VisitRecord := {}

/-- Truthy coordinates farther than the distance gate from every catalog
region, together with a geo-IP city that would match `ap-tok`. -/
def farRecord : VisitRecord :=
  { latitude := some (.num (-89)), longitude := some (.num 1),
    geoip_city := some (.str "Tokyo") }

/-- A record whose geo-IP city is a single space. -/
def wsRecord : VisitRecord := { geoip_city := some (.str " ") }

/-- A record whose geo-IP city is a (truthy) number, not a string. -/
def badCityRecord : VisitRecord := { geoip_city := some (.num 5) }

/-- A record whose ASN-correlation `pattern_similarity` is 2, outside
`[0, 1]`. -/
def overRangeRecord : VisitRecord :=
  { asn_correlation := some { pattern_similarity := some 2 } }

/-- A record with a full, in-range ASN-correlation sub-object. -/
def fullCorrRecord : VisitRecord :=
  { asn_correlation := some
      { average_deviation := some 100, pattern_similarity := some (1/2),
        matching_asns := some 25, visit_count := some 3 } }

/-- A record carrying a timestamp (hour 1, Tuesday). -/
def tsRecord : VisitRecord :=
  { timestamp := some ⟨⟨1, by norm_num⟩, ⟨1, by norm_num⟩⟩ }

/-- A record whose latitude is present but `0.0` (falsy in Python), with a
truthy longitude and a geo-IP city. -/
def zeroLatRecord : VisitRecord :=
  { latitude := some (.num 0), longitude := some (.num 7),
    geoip_city := some (.str "Paris") }

/-! ### Helper lemmas -/

theorem enumFrom_map_snd {α : Type} : ∀ (n : ℕ) (l : List α),
    (l.enumFrom n).map Prod.snd = l := by
  intro n l
  induction l generalizing n with
  | nil => rfl
  | cons a t ih => simp [List.enumFrom, ih]

theorem enum_map_snd {α : Type} (l : List α) :
    l.enum.map Prod.snd = l :=
  enumFrom_map_snd 0 l

theorem find_region_by_city_str_ok (s : String) :
    ∃ r, find_region_by_city (.str s) = .ok r :=
  ⟨_, rfl⟩

theorem cityOk_getD (o : Option PyVal) (h : o.all cityOk = true) :
    cityOk (o.getD .none) = true := by
  cases o with
  | none => rfl
  | some v => simpa using h

theorem coordOk_getD (o : Option PyVal) (h : o.all coordOk = true) :
    coordOk (o.getD .none) = true := by
  cases o with
  | none => rfl
  | some v => simpa using h

theorem asnStep_ok (row : VisitRecord)
    (ha : row.asn_inferred_city.all cityOk = true) :
    ∃ r, asnStep row = .ok r := by
  have h : cityOk (row.asn_inferred_city.getD .none) = true := cityOk_getD _ ha
  rcases hv : row.asn_inferred_city.getD .none with q | s | b | _
  · rw [hv] at h
    have hq : q = 0 := by
      simpa [cityOk, PyVal.isStr, PyVal.truthy] using h
    exact ⟨Option.none, by simp [asnStep, hv, PyVal.truthy, hq]⟩
  · obtain ⟨r, hr⟩ := find_region_by_city_str_ok s
    rcases r with _ | rid
    · exact ⟨Option.none, by simp [asnStep, hv, hr]⟩
    · by_cases ht : (PyVal.str s).truthy = true
      · exact ⟨some rid, by simp [asnStep, hv, ht, hr]⟩
      · exact ⟨Option.none, by simp [asnStep, hv, ht]⟩
  · rw [hv] at h
    have hb : b = false := by
      simpa [cityOk, PyVal.isStr, PyVal.truthy] using h
    exact ⟨Option.none, by simp [asnStep, hv, PyVal.truthy, hb]⟩
  · exact ⟨Option.none, by simp [asnStep, hv, PyVal.truthy]⟩

theorem cityLabel_ok (row : VisitRecord)
    (hg : row.geoip_city.all cityOk = true)
    (ha : row.asn_inferred_city.all cityOk = true) :
    ∃ r, cityLabel row = .ok r := by
  obtain ⟨r2, hr2⟩ := asnStep_ok row ha
  have h : cityOk (row.geoip_city.getD .none) = true := cityOk_getD _ hg
  rcases hv : row.geoip_city.getD .none with q | s | b | _
  · rw [hv] at h
    have hq : q = 0 := by
      simpa [cityOk, PyVal.isStr, PyVal.truthy] using h
    exact ⟨r2, by simp [cityLabel, hv, PyVal.truthy, hq, hr2]⟩
  · obtain ⟨r, hr⟩ := find_region_by_city_str_ok s
    rcases r with _ | rid
    · exact ⟨r2, by simp [cityLabel, hv, hr, hr2]⟩
    · by_cases ht : (PyVal.str s).truthy = true
      · exact ⟨some rid, by simp [cityLabel, hv, ht, hr]⟩
      · exact ⟨r2, by simp [cityLabel, hv, ht, hr2]⟩
  · rw [hv] at h
    have hb : b = false := by
      simpa [cityOk, PyVal.isStr, PyVal.truthy] using h
    exact ⟨r2, by simp [cityLabel, hv, PyVal.truthy, hb, hr2]⟩
  · exact ⟨r2, by simp [cityLabel, hv, PyVal.truthy, hr2]⟩

theorem normalize_rtt_mem (x : ℚ) :
    0 ≤ normalize_rtt x ∧ normalize_rtt x ≤ 1 := by
  unfold normalize_rtt
  exact ⟨le_max_left 0 _, max_le (by norm_num) (min_le_left 1 _)⟩

theorem hour_div_mem (t : Timestamp) :
    0 ≤ (t.hour.val : ℚ) / 24 ∧ (t.hour.val : ℚ) / 24 ≤ 1 := by
  have h : (t.hour.val : ℚ) ≤ 24 := by
    exact_mod_cast (le_of_lt t.hour.isLt)
  constructor
  · positivity
  · rw [div_le_one (by norm_num : (0:ℚ) < 24)]
    exact h

theorem weekday_div_mem (t : Timestamp) :
    0 ≤ (t.weekday.val : ℚ) / 7 ∧ (t.weekday.val : ℚ) / 7 ≤ 1 := by
  have h : (t.weekday.val : ℚ) ≤ 7 := by
    exact_mod_cast (le_of_lt t.weekday.isLt)
  constructor
  · positivity
  · rw [div_le_one (by norm_num : (0:ℚ) < 7)]
    exact h

/-! ### C1: default suspicion level -/

/-- C1 counterexample: on a record whose `vpn_detection` object is entirely
absent, feature 6 (suspicion_score) is 0.25, not 0.0 — the code defaults the
level to "low" whether or not the vpn object is present. -/
theorem suspicion_absent_vpn_cex :
    emptyRecord.vpn_detection = Option.none ∧
    (build_features now0 emptyRecord).get? 6 = some (0.25 : ℚ) ∧
    (0.25 : ℚ) ≠ 0 := by
  refine ⟨rfl, ?_, by norm_num⟩
  simp [build_features, emptyRecord]

/-- C1 amended: feature 6 is 0.25 whenever the record carries no
`suspicion_level` — both when `vpn_detection` is absent and when it is present
without that key; 0.0 arises only from a present level outside
high/medium/low. -/
theorem suspicion_defaults_low (now : Timestamp) (row : VisitRecord)
    (h : ∀ v ∈ row.vpn_detection, v.suspicion_level = Option.none) :
    (build_features now row).get? 6 = some (0.25 : ℚ) := by
  rcases hv : row.vpn_detection with _ | v
  · rcases hc : row.asn_correlation with _ | c <;> simp [build_features, hv, hc]
  · have hs : v.suspicion_level = Option.none := h v (by simp [hv])
    rcases hc : row.asn_correlation with _ | c <;>
      simp [build_features, hv, hs, hc]

/-- Witness for the amended C1 theorem at the all-absent record. -/
theorem suspicion_defaults_low_witness :
    (∀ v ∈ emptyRecord.vpn_detection, v.suspicion_level = Option.none) ∧
    (build_features now0 emptyRecord).get? 6 = some (0.25 : ℚ) :=
  ⟨by simp [emptyRecord],
   suspicion_defaults_low now0 emptyRecord (by simp [emptyRecord])⟩

/-! ### C2: the distance gate -/

set_option maxHeartbeats 2000000 in
/-- C2: the coordinate step accepts matches up to a straight-line distance of
100 degrees, not 10: at (20, 20) the nearest centroid (eu-fra) has squared
distance well above 100 degrees² and is still returned.  (The source compares
the square-rooted distance against 100, contradicting its own `Max ~10°`
comment.) -/
theorem nearest_gate_is_100_degrees_cex :
    nearest_region_by_coords 20 20 = some "eu-fra" ∧
    ¬ (((20 : ℚ) - 50.1109) ^ 2 + ((20 : ℚ) - 8.6821) ^ 2 < 100) := by
  constructor
  · norm_num [nearest_region_by_coords, nearestFold, REGION_DEFINITIONS]
  · norm_num

/-! ### C3: no fall-through from the coordinate step -/

set_option maxHeartbeats 2000000 in
/-- C3 counterexample: a record with truthy coordinates outside every region's
gate returns no label, although the city signals (steps 2–3) would have
produced `ap-tok` — the extractor never falls through to them. -/
theorem coords_no_fallthrough_cex :
    extract_label farRecord = .ok Option.none ∧
    cityLabel farRecord = .ok (some "ap-tok") := by
  constructor
  · norm_num [extract_label, farRecord, PyVal.truthy, PyVal.asNum?,
      nearest_region_by_coords, nearestFold, REGION_DEFINITIONS]
  · rfl

/-- C3 amended: when both coordinates are truthy numbers, the extractor's
result is exactly the coordinate step's result — in particular, coordinates
outside the gate of every region yield no label without consulting the city
signals. -/
theorem extract_label_coords_only (row : VisitRecord) (lat lon : ℚ)
    (hla : row.latitude = some (.num lat))
    (hlo : row.longitude = some (.num lon))
    (h1 : lat ≠ 0) (h2 : lon ≠ 0) :
    extract_label row = .ok (nearest_region_by_coords lat lon) := by
  simp [extract_label, hla, hlo, PyVal.truthy, PyVal.asNum?, h1, h2]

/-- Witness for the amended C3 theorem at the far-away record. -/
theorem extract_label_coords_only_witness :
    farRecord.latitude = some (.num (-89)) ∧
    farRecord.longitude = some (.num 1) ∧
    ((-89 : ℚ) ≠ 0) ∧ ((1 : ℚ) ≠ 0) ∧
    extract_label farRecord = .ok (nearest_region_by_coords (-89) 1) :=
  ⟨rfl, rfl, by norm_num, by norm_num,
   extract_label_coords_only farRecord (-89) 1 rfl rfl (by norm_num)
     (by norm_num)⟩

/-! ### C5: whitespace city strings -/

/-- C5: a whitespace-only geo-IP city does not behave as absent: the single
space substring-matches inside "Amsterdam Metro" and the extractor returns
`eu-ams`. -/
theorem whitespace_city_matches_eu_ams :
    extract_label wsRecord = .ok (some "eu-ams") := rfl

/-! ### C7: determinism of the feature builder -/

/-- C7 counterexample: on a record without a timestamp the feature vector
depends on the wall clock (`pd.Timestamp.now()`), so two calls at different
instants disagree. -/
theorem build_features_wallclock_cex :
    build_features now0 emptyRecord ≠ build_features now12 emptyRecord := by
  intro h
  have h7 := congrArg (fun l => l[7]?) h
  norm_num [build_features, now0, now12, emptyRecord] at h7

/-- C7 amended: the feature builder is a deterministic function of the record
and the wall clock; when the record carries a timestamp the wall clock is
ignored, so repeated calls agree bit for bit. -/
theorem build_features_ignores_clock (row : VisitRecord) (t : Timestamp)
    (n1 n2 : Timestamp) (h : row.timestamp = some t) :
    build_features n1 row = build_features n2 row := by
  simp [build_features, h]

/-- Witness for the amended C7 theorem at a record with a timestamp. -/
theorem build_features_ignores_clock_witness :
    tsRecord.timestamp = some ⟨⟨1, by norm_num⟩, ⟨1, by norm_num⟩⟩ ∧
    build_features now0 tsRecord = build_features now12 tsRecord :=
  ⟨rfl, build_features_ignores_clock tsRecord _ now0 now12 rfl⟩

/-! ### C8: insufficient-sample abort -/

/-- C8: when dataset assembly completes with fewer than 50 samples, the
pipeline returns the failure signal and performs no training, no export and no
metadata write. -/
theorem run_aborts_on_few_samples (now : Timestamp)
    (records : List VisitRecord) (samples : List (List ℚ × String))
    (hprep : prepare_training_data now records = .ok samples)
    (hlen : samples.length < 50) :
    run now records = .ok ⟨false, false, false, false⟩ := by
  simp [run, hprep, hlen]

/-- Witness for C8 at the empty corpus. -/
theorem run_aborts_on_few_samples_witness :
    prepare_training_data now0 [] = .ok [] ∧
    ([] : List (List ℚ × String)).length < 50 ∧
    run now0 [] = .ok ⟨false, false, false, false⟩ :=
  ⟨rfl, by norm_num, run_aborts_on_few_samples now0 [] [] rfl (by norm_num)⟩

/-! ### C9: label encoding round-trip -/

/-- C9: class indices are assigned over the lexicographically sorted distinct
observed labels, and reading the `classIndexToRegionId` map back in index
order reproduces exactly that sorted label set. -/
theorem label_encoding_sorted_roundtrip (labels : List String)
    (h : labels ≠ []) :
    List.Sorted (fun a b => a < b) (labelClasses labels) ∧
    (classIndexToRegionId (labelClasses labels)).map Prod.snd =
      labelClasses labels ∧
    ∀ l, l ∈ labelClasses labels ↔ l ∈ labels := by
  refine ⟨Finset.sort_sorted_lt _, ?_, ?_⟩
  · simp only [classIndexToRegionId, List.map_map]
    exact enum_map_snd (labelClasses labels)
  · intro l
    simp [labelClasses, Finset.mem_sort, List.mem_toFinset]

/-- Witness for C9 at a two-label corpus. -/
theorem label_encoding_sorted_roundtrip_witness :
    (["b", "a"] ≠ ([] : List String)) ∧
    (List.Sorted (fun a b => a < b) (labelClasses ["b", "a"]) ∧
     (classIndexToRegionId (labelClasses ["b", "a"])).map Prod.snd =
       labelClasses ["b", "a"] ∧
     ∀ l, l ∈ labelClasses ["b", "a"] ↔ l ∈ ["b", "a"]) :=
  ⟨by simp, label_encoding_sorted_roundtrip ["b", "a"] (by simp)⟩

/-! ### C10: falsy coordinates -/

/-- C10: a present-but-falsy latitude or longitude (0.0, empty string, None,
False) sends the extractor straight to the city-based signals: the result is
that of `cityLabel`, which never invokes the nearest-region computation. -/
theorem falsy_coords_use_city_signals (row : VisitRecord)
    (h : (∃ v, row.latitude = some v ∧ v.truthy = false) ∨
         (∃ v, row.longitude = some v ∧ v.truthy = false)) :
    extract_label row = cityLabel row := by
  rcases h with ⟨v, hv, ht⟩ | ⟨v, hv, ht⟩ <;> simp [extract_label, hv, ht]

/-- Witness for C10 at a record with latitude 0.0. -/
theorem falsy_coords_use_city_signals_witness :
    ((∃ v, zeroLatRecord.latitude = some v ∧ v.truthy = false) ∨
     (∃ v, zeroLatRecord.longitude = some v ∧ v.truthy = false)) ∧
    extract_label zeroLatRecord = cityLabel zeroLatRecord :=
  ⟨Or.inl ⟨.num 0, rfl, by simp [PyVal.truthy]⟩,
   falsy_coords_use_city_signals zeroLatRecord
     (Or.inl ⟨.num 0, rfl, by simp [PyVal.truthy]⟩)⟩

/-! ### C4: the extractor and malformed fields -/

/-- C4 counterexample: a record whose geo-IP city is the number 5 (truthy but
not a string) makes the extractor raise `AttributeError` from `city.lower()` —
it does not return a label or no-label. -/
theorem extract_label_raises_on_nonstring_city :
    extract_label badCityRecord = .error .attributeError := rfl

/-- C4 amended: the extractor never raises on records whose present and truthy
signal fields are well-typed (numeric or boolean coordinates, string cities);
a truthy non-string city or a truthy non-numeric coordinate raises. -/
theorem extract_label_welltyped_never_raises (row : VisitRecord)
    (h : wellTypedRecord row = true) :
    ∃ r, extract_label row = .ok r := by
  simp only [wellTypedRecord, Bool.and_eq_true] at h
  obtain ⟨⟨⟨hlat, hlon⟩, hg⟩, ha⟩ := h
  by_cases hc : ((row.latitude.getD .none).truthy &&
      (row.longitude.getD .none).truthy) = true
  · simp only [Bool.and_eq_true] at hc
    obtain ⟨h1, h2⟩ := hc
    have hn1 : (row.latitude.getD .none).asNum?.isSome = true := by
      simpa [coordOk, h1] using coordOk_getD _ hlat
    have hn2 : (row.longitude.getD .none).asNum?.isSome = true := by
      simpa [coordOk, h2] using coordOk_getD _ hlon
    obtain ⟨a, hA⟩ := Option.isSome_iff_exists.mp hn1
    obtain ⟨b, hB⟩ := Option.isSome_iff_exists.mp hn2
    exact ⟨nearest_region_by_coords a b,
      by simp [extract_label, h1, h2, hA, hB]⟩
  · obtain ⟨r, hr⟩ := cityLabel_ok row hg ha
    exact ⟨r, by simp [extract_label, hc, hr]⟩

/-- Witness for the amended C4 theorem at a well-typed record. -/
theorem extract_label_welltyped_never_raises_witness :
    wellTypedRecord farRecord = true ∧ ∃ r, extract_label farRecord = .ok r :=
  ⟨by decide, extract_label_welltyped_never_raises farRecord (by decide)⟩

/-! ### C6: feature-vector length and bounds -/

/-- C6 counterexample: a record whose `pattern_similarity` is 2 yields feature
1 equal to 2 — the value is passed through unclamped, outside `[0, 1]`. -/
theorem feature_out_of_bounds_cex :
    (build_features now0 overRangeRecord).length = 10 ∧
    (build_features now0 overRangeRecord).get? 1 = some (2 : ℚ) ∧
    ¬ ((2 : ℚ) ≤ 1) := by
  refine ⟨?_, ?_, by norm_num⟩ <;> simp [build_features, overRangeRecord]

/-- C6 amended: the feature builder always returns exactly 10 values; every
feature except indices 1 and 2 lies in its stated bound unconditionally
(indices 0, 3, 5–9 in `[0, 1]`, index 4 in `[-1, 1]`), and the pass-through
features 1 and 2 lie in `[0, 1]` provided `pattern_similarity` lies in
`[0, 1]` and `matching_asns` in `[0, 50]`. -/
theorem build_features_ten_bounded (now : Timestamp) (row : VisitRecord) :
    (build_features now row).length = 10 ∧
    (∀ i : ℕ, i < 10 → i ≠ 1 → i ≠ 2 → i ≠ 4 →
      ∃ q : ℚ, (build_features now row).get? i = some q ∧ 0 ≤ q ∧ q ≤ 1) ∧
    (∃ q : ℚ, (build_features now row).get? 4 = some q ∧ -1 ≤ q ∧ q ≤ 1) ∧
    ((∀ c ∈ row.asn_correlation, ∀ p ∈ c.pattern_similarity,
        0 ≤ p ∧ p ≤ 1) →
      ∃ q : ℚ, (build_features now row).get? 1 = some q ∧ 0 ≤ q ∧ q ≤ 1) ∧
    ((∀ c ∈ row.asn_correlation, ∀ m ∈ c.matching_asns,
        0 ≤ m ∧ m ≤ 50) →
      ∃ q : ℚ, (build_features now row).get? 2 = some q ∧ 0 ≤ q ∧ q ≤ 1) := by
  rcases hc : row.asn_correlation with _ | c
  · have he : build_features now row =
        [0, 0, 0, 0,
         max (-1) (min 1 ((if row.timezone_offset_minutes.getD 0 = 0 then 0
           else row.timezone_offset_minutes.getD 0 / 60) / 12)),
         if (row.vpn_detection.getD {}).is_likely_vpn.getD false = true
           then 1 else 0,
         if (row.vpn_detection.getD {}).suspicion_level.getD "low" = "high"
           then 1
           else if (row.vpn_detection.getD {}).suspicion_level.getD "low" =
             "medium" then 0.5
           else if (row.vpn_detection.getD {}).suspicion_level.getD "low" =
             "low" then 0.25
           else 0,
         ((row.timestamp.getD now).hour.val : ℚ) / 24,
         ((row.timestamp.getD now).weekday.val : ℚ) / 7,
         if row.locale.getD "" ≠ "" ∧ 2 < (row.locale.getD "").length
           then 0.5 else 0] := by
      simp [build_features, hc]
    rw [he]
    refine ⟨by simp, ?_,
      ⟨_, rfl, le_max_left _ _, max_le (by norm_num) (min_le_left 1 _)⟩,
      fun _ => ⟨0, rfl, by norm_num, by norm_num⟩,
      fun _ => ⟨0, rfl, by norm_num, by norm_num⟩⟩
    intro i hi h1i h2i h4i
    interval_cases i
    · exact ⟨0, rfl, by norm_num, by norm_num⟩
    · exact absurd rfl h1i
    · exact absurd rfl h2i
    · exact ⟨0, rfl, by norm_num, by norm_num⟩
    · exact absurd rfl h4i
    · exact ⟨_, rfl, by split_ifs <;> norm_num, by split_ifs <;> norm_num⟩
    · exact ⟨_, rfl, by split_ifs <;> norm_num, by split_ifs <;> norm_num⟩
    · exact ⟨_, rfl, (hour_div_mem _).1, (hour_div_mem _).2⟩
    · exact ⟨_, rfl, (weekday_div_mem _).1, (weekday_div_mem _).2⟩
    · exact ⟨_, rfl, by split_ifs <;> norm_num, by split_ifs <;> norm_num⟩
  · have he : build_features now row =
        [normalize_rtt (c.average_deviation.getD 0),
         c.pattern_similarity.getD 0,
         c.matching_asns.getD 0 / 50,
         if 0 < c.visit_count.getD 0 then 1 else 0,
         max (-1) (min 1 ((if row.timezone_offset_minutes.getD 0 = 0 then 0
           else row.timezone_offset_minutes.getD 0 / 60) / 12)),
         if (row.vpn_detection.getD {}).is_likely_vpn.getD false = true
           then 1 else 0,
         if (row.vpn_detection.getD {}).suspicion_level.getD "low" = "high"
           then 1
           else if (row.vpn_detection.getD {}).suspicion_level.getD "low" =
             "medium" then 0.5
           else if (row.vpn_detection.getD {}).suspicion_level.getD "low" =
             "low" then 0.25
           else 0,
         ((row.timestamp.getD now).hour.val : ℚ) / 24,
         ((row.timestamp.getD now).weekday.val : ℚ) / 7,
         if row.locale.getD "" ≠ "" ∧ 2 < (row.locale.getD "").length
           then 0.5 else 0] := by
      simp [build_features, hc]
    rw [he]
    refine ⟨by simp, ?_,
      ⟨_, rfl, le_max_left _ _, max_le (by norm_num) (min_le_left 1 _)⟩,
      ?_, ?_⟩
    · intro i hi h1i h2i h4i
      interval_cases i
      · exact ⟨_, rfl, (normalize_rtt_mem _).1, (normalize_rtt_mem _).2⟩
      · exact absurd rfl h1i
      · exact absurd rfl h2i
      · exact ⟨_, rfl, by split_ifs <;> norm_num, by split_ifs <;> norm_num⟩
      · exact absurd rfl h4i
      · exact ⟨_, rfl, by split_ifs <;> norm_num, by split_ifs <;> norm_num⟩
      · exact ⟨_, rfl, by split_ifs <;> norm_num, by split_ifs <;> norm_num⟩
      · exact ⟨_, rfl, (hour_div_mem _).1, (hour_div_mem _).2⟩
      · exact ⟨_, rfl, (weekday_div_mem _).1, (weekday_div_mem _).2⟩
      · exact ⟨_, rfl, by split_ifs <;> norm_num, by split_ifs <;> norm_num⟩
    · intro h1
      rcases hp : c.pattern_similarity with _ | p
      · exact ⟨_, rfl, by simp [hp], by simp [hp]⟩
      · have hb := h1 c (by simp) p (by simp [hp])
        exact ⟨_, rfl, by simp only [hp, Option.getD_some]; exact hb.1,
          by simp only [hp, Option.getD_some]; exact hb.2⟩
    · intro h2
      rcases hm : c.matching_asns with _ | m
      · exact ⟨_, rfl, by simp [hm], by simp [hm]⟩
      · have hb := h2 c (by simp) m (by simp [hm])
        refine ⟨_, rfl, ?_, ?_⟩
        · simp only [hm, Option.getD_some]
          exact div_nonneg hb.1 (by norm_num)
        · simp only [hm, Option.getD_some]
          rw [div_le_one (by norm_num : (0:ℚ) < 50)]
          exact hb.2

/-- Witness for the amended C6 theorem at a record whose correlation
sub-object is present with in-range values, exercising the feature-1 and
feature-2 implications non-vacuously. -/
theorem build_features_ten_bounded_witness :
    (∀ c ∈ fullCorrRecord.asn_correlation, ∀ p ∈ c.pattern_similarity,
      0 ≤ p ∧ p ≤ 1) ∧
    (∀ c ∈ fullCorrRecord.asn_correlation, ∀ m ∈ c.matching_asns,
      0 ≤ m ∧ m ≤ 50) ∧
    (build_features now0 fullCorrRecord).length = 10 ∧
    (∃ q : ℚ, (build_features now0 fullCorrRecord).get? 0 = some q ∧
      0 ≤ q ∧ q ≤ 1) ∧
    (∃ q : ℚ, (build_features now0 fullCorrRecord).get? 4 = some q ∧
      -1 ≤ q ∧ q ≤ 1) ∧
    (∃ q : ℚ, (build_features now0 fullCorrRecord).get? 1 = some q ∧
      0 ≤ q ∧ q ≤ 1) ∧
    (∃ q : ℚ, (build_features now0 fullCorrRecord).get? 2 = some q ∧
      0 ≤ q ∧ q ≤ 1) := by
  have hp : ∀ c ∈ fullCorrRecord.asn_correlation, ∀ p ∈ c.pattern_similarity,
      0 ≤ p ∧ p ≤ 1 := by norm_num [fullCorrRecord]
  have hm : ∀ c ∈ fullCorrRecord.asn_correlation, ∀ m ∈ c.matching_asns,
      0 ≤ m ∧ m ≤ 50 := by norm_num [fullCorrRecord]
  exact ⟨hp, hm, (build_features_ten_bounded now0 fullCorrRecord).1,
    (build_features_ten_bounded now0 fullCorrRecord).2.1 0 (by norm_num)
      (by norm_num) (by norm_num) (by norm_num),
    (build_features_ten_bounded now0 fullCorrRecord).2.2.1,
    (build_features_ten_bounded now0 fullCorrRecord).2.2.2.1 hp,
    (build_features_ten_bounded now0 fullCorrRecord).2.2.2.2 hm⟩

end Ask2Ask
